import Mathlib

/-!
Verification of the VimeoPlayer repository's core logic.

This file gives a shallow embedding, in Lean 4, of the pure logic of the
repository: the URL-to-video resolver of `App.tsx`, the cover layout
computation, the aspect-ratio update guards, the provider state handlers
and the overlay visibility logic of the `UniversalPlayer` component, and
the timer bookkeeping of its teardown path.  JavaScript number arithmetic
is modelled by exact rational arithmetic (`ℚ`), `Math.ceil` by `Int.ceil`,
and JavaScript truthiness of a numeric field by `≠ 0` on an optional
value.  Theorems about these definitions settle the specification claims.
-/

/-- Video provider, the `'vimeo' | 'youtube'` union of `App.tsx`. -/
inductive Provider where
  | vimeo
  | youtube
deriving DecidableEq, Repr

/-- A resolved video reference `{ id, provider }` as produced by the
resolver in `App.tsx`. -/
structure VideoRef where
  id : String
  provider : Provider
deriving DecidableEq, Repr

/-- Default video id from `VIDEO_CONFIG` in the constants module. -/
def VIDEO_CONFIG_id : String := "1157009946"

/-! ## Cover layout engine (`calculateDimensions`, UniversalPlayer) -/

/-- Embedding of `calculateDimensions(containerWidth, containerHeight, aspect)`:
compare the container aspect to the video aspect, fit the larger axis, then
apply the 1.02 overscan multiplier and `Math.ceil` to both dimensions.
Returns the `(width, height)` pair in integer pixels. -/
def calculateDimensions (containerWidth containerHeight aspect : ℚ) : ℤ × ℤ :=
  let containerAspect := containerWidth / containerHeight
  let wh : ℚ × ℚ :=
    if containerAspect > aspect then
      (containerWidth, containerWidth / aspect)
    else
      (containerHeight * aspect, containerHeight)
  (⌈wh.1 * (102 / 100)⌉, ⌈wh.2 * (102 / 100)⌉)

/-! ## Aspect-ratio tracker (UniversalPlayer) -/

/-- Initial value of the `videoAspectRatio` state: `16 / 9`. -/
def videoAspectRatioInit : ℚ := 16 / 9

/-- Embedding of the dimension-response guards: both `setupVimeo`'s
`if (w && h) setVideoAspectRatio(w / h)` and `fetchInfo`'s
`if (data.width && data.height) setVideoAspectRatio(data.width / data.height)`.
A missing field is `none`; JavaScript truthiness of a number is `≠ 0`.
Returns the aspect ratio after the response is processed. -/
def updateAspect (w h : Option ℚ) (aspect : ℚ) : ℚ :=
  match w, h with
  | some wv, some hv => if wv ≠ 0 ∧ hv ≠ 0 then wv / hv else aspect
  | _, _ => aspect

/-! ## Async Vimeo oEmbed resolution (`resolveVimeoUrl`, App.tsx) -/

/-- Outcome of the oEmbed fetch performed by `resolveVimeoUrl`: the fetch
(or JSON parse) rejects, the response is not ok, the JSON lacks a
`video_id` field, or it carries a numeric `video_id`. -/
inductive OembedOutcome where
  | fetchReject
  | notOk
  | jsonNoVideoId
  | jsonVideoId (n : Nat)
deriving DecidableEq, Repr

/-- Embedding of `resolveVimeoUrl` in `App.tsx`: the video reference that
is set once the async resolution completes.  The `try/catch` plus the
trailing fallback make every failure path set the configured default;
a truthy `video_id` (nonzero) is stringified and used. -/
def resolveVimeoUrl : OembedOutcome → VideoRef
  | .fetchReject => ⟨VIDEO_CONFIG_id, .vimeo⟩
  | .notOk => ⟨VIDEO_CONFIG_id, .vimeo⟩
  | .jsonNoVideoId => ⟨VIDEO_CONFIG_id, .vimeo⟩
  | .jsonVideoId n => if n ≠ 0 then ⟨toString n, .vimeo⟩ else ⟨VIDEO_CONFIG_id, .vimeo⟩

/-! ## Playback state and overlay (UniversalPlayer) -/

/-- The synchronized player state of `UniversalPlayer`: the `isPlaying`,
`progress` and `showControls` React state hooks. -/
structure PlayerState where
  isPlaying : Bool
  progress : ℚ
  showControls : Bool
deriving DecidableEq, Repr

/-- Observable state of the underlying provider embed, as driven by the
commands the component issues (`setCurrentTime`/`seekTo`, `pause`/`pauseVideo`). -/
structure AdapterState where
  currentTime : ℚ
  paused : Bool
deriving DecidableEq, Repr

/-- Embedding of the Vimeo `ended` event handler of `UniversalPlayer`:
`setIsPlaying(false); setProgress(0); setCurrentTime(0); pause()`. -/
def vimeoEnded (s : PlayerState) (a : AdapterState) : PlayerState × AdapterState :=
  ({ s with isPlaying := false, progress := 0 },
   { a with currentTime := 0, paused := true })

/-- Embedding of the YouTube `onStateChange` handler of `UniversalPlayer`:
code 1 sets playing, code 2 sets paused, code 0 resets progress and
issues `seekTo(0)` and `pauseVideo()`; every other code leaves the state
untouched. -/
def onStateChange (code : ℤ) (s : PlayerState) (a : AdapterState) :
    PlayerState × AdapterState :=
  let s1 := if code = 1 then { s with isPlaying := true } else s
  let s2 := if code = 2 then { s1 with isPlaying := false } else s1
  if code = 0 then
    ({ s2 with isPlaying := false, progress := 0 },
     { a with currentTime := 0, paused := true })
  else
    (s2, a)

/-- Embedding of the YouTube branch of the 1-second `syncInterval` poll of
`UniversalPlayer`: copy the current time into `progress` when it is a
number, and set `isPlaying` to `state === 1 || state === 3`. -/
def ytSyncTick (state : ℤ) (ct : Option ℚ) (s : PlayerState) : PlayerState :=
  let s1 := match ct with
    | some t => { s with progress := t }
    | none => s
  { s1 with isPlaying := (state = 1 ∨ state = 3 : Bool) }

/-- Embedding of `isControlsVisible` in `UniversalPlayer`:
`showControls || !isPlaying`. -/
def isControlsVisible (s : PlayerState) : Bool :=
  s.showControls || !s.isPlaying

/-- Embedding of the body of the 3-second auto-hide timeout scheduled by
`showControlsTemporarily` in `UniversalPlayer`: `setShowControls(false)`. -/
def hideTimerFire (s : PlayerState) : PlayerState :=
  { s with showControls := false }

/-! ## Timer bookkeeping of the init effect (UniversalPlayer) -/

/-- The timer handles the component holds: the 1-second `syncInterval`
poll, the `checkYTInterval` YouTube-API-readiness poll, and the
`controlsTimeoutRef` auto-hide timeout.  `none` means no pending timer. -/
structure TimerState where
  syncInterval : Option Nat
  checkYT : Option Nat
  controlsTimeout : Option Nat
deriving DecidableEq, Repr

/-- Embedding of the cleanup function returned by the player init effect
of `UniversalPlayer`: it clears `syncInterval` and `checkYTInterval.current`
(and unloads the players); it does not touch `controlsTimeoutRef`. -/
def initCleanup (t : TimerState) : TimerState :=
  { t with syncInterval := none, checkYT := none }

/-! ## Video reference resolver (App.tsx) -/

/-- JavaScript `\s` whitespace class, by code point. -/
def jsWhitespace (c : Char) : Bool :=
  c = '\t' || c = '\n' || c.val = 11 || c.val = 12 || c = '\r' || c = ' ' ||
  c.val = 0xa0 || c.val = 0x1680 || (0x2000 ≤ c.val && c.val ≤ 0x200a) ||
  c.val = 0x2028 || c.val = 0x2029 || c.val = 0x202f || c.val = 0x205f ||
  c.val = 0x3000 || c.val = 0xfeff

/-- Character class of the capture group of `ytRegex` in `App.tsx`: any
character other than a double quote, ampersand, question mark, slash or
whitespace. -/
def classD (c : Char) : Bool :=
  !(c = '"' || c = '&' || c = '?' || c = '/' || jsWhitespace c)

/-- JavaScript `.` (dot) class: any character except a line terminator. -/
def isDot (c : Char) : Bool :=
  !(c = '\n' || c = '\r' || c.val = 0x2028 || c.val = 0x2029)

/-- Negated class `[^/]` used in the first alternative of `ytRegex`. -/
def nonSlash (c : Char) : Bool := !(c = '/')

/-- First-success choice between two optional results, the combinator of
ordered regex alternation and of backtracking points. -/
def orElseO (a : Option (List Char)) (b : Unit → Option (List Char)) :
    Option (List Char) :=
  match a with
  | some v => some v
  | none => b ()

/-- Match a literal character sequence, then continue with `k` on the rest. -/
def matchLit : List Char → List Char → (List Char → Option (List Char)) →
    Option (List Char)
  | [], s, k => k s
  | _ :: _, [], _ => none
  | c :: cs, d :: ds, k => if c = d then matchLit cs ds k else none

/-- Greedy `+` on a character class with backtracking: consume one or more
characters satisfying `p`, trying the longest consumption first, and hand
the remainder to the continuation `k`. -/
def greedyPlus (p : Char → Bool) : List Char → (List Char → Option (List Char)) →
    Option (List Char)
  | [], _ => none
  | c :: rest, k =>
    if p c then orElseO (greedyPlus p rest k) (fun _ => k rest) else none

/-- Greedy `*` on a character class: like `greedyPlus` but zero
consumption is allowed (tried last). -/
def greedyStar (p : Char → Bool) (s : List Char)
    (k : List Char → Option (List Char)) : Option (List Char) :=
  orElseO (greedyPlus p s k) (fun _ => k s)

/-- Capture group of `ytRegex`: exactly 11 consecutive characters of the
class `classD`; returns them as the captured video id. -/
def mCap (r : List Char) : Option (List Char) :=
  let cand := r.take 11
  if cand.length = 11 ∧ cand.all classD then some cand else none

/-- Continuation after the second slash of the alternative `[^/]+/.+/`:
go straight to the capture group. -/
def a1k2 (r3 : List Char) : Option (List Char) := matchLit ['/'] r3 mCap

/-- Continuation after the first slash of `[^/]+/.+/`: greedy `.+`, then
the second slash and the capture. -/
def a1mid (r2 : List Char) : Option (List Char) := greedyPlus isDot r2 a1k2

/-- Continuation after `[^/]+` in `[^/]+/.+/`: the first slash. -/
def a1k1 (r1 : List Char) : Option (List Char) := matchLit ['/'] r1 a1mid

/-- First alternative after `youtube.com/` in `ytRegex`: `[^/]+/.+/`
followed by the capture group. -/
def matchA1 (r : List Char) : Option (List Char) := greedyPlus nonSlash r a1k1

/-- Trailing `/` plus capture, shared by the `v`/`e`/`embed` forms. -/
def a2slash (r : List Char) : Option (List Char) := matchLit ['/'] r mCap

/-- After a leading `e`: optionally (greedily) the letters `mbed`, then
the slash and the capture. -/
def a2afterE (r1 : List Char) : Option (List Char) :=
  orElseO (matchLit ['m','b','e','d'] r1 a2slash) (fun _ => a2slash r1)

/-- Second alternative after `youtube.com/` in `ytRegex`:
`(?:v|e(?:mbed)?)/` followed by the capture group. -/
def matchA2 (r : List Char) : Option (List Char) :=
  orElseO (matchLit ['v'] r a2slash) (fun _ => matchLit ['e'] r a2afterE)

/-- Continuation of the third alternative after its greedy `.*`: one
character of `[?&]`, the literal `v=`, then the capture group. -/
def a3k (r1 : List Char) : Option (List Char) :=
  match r1 with
  | [] => none
  | c :: r2 => if c = '?' ∨ c = '&' then matchLit ['v','='] r2 mCap else none

/-- Third alternative after `youtube.com/` in `ytRegex`: `.*[?&]v=`
followed by the capture group. -/
def matchA3 (r : List Char) : Option (List Char) := greedyStar isDot r a3k

/-- Ordered choice of the three alternatives after `youtube.com/`. -/
def ytInner (r : List Char) : Option (List Char) :=
  orElseO (matchA1 r) (fun _ => orElseO (matchA2 r) (fun _ => matchA3 r))

/-- Literal prefix `youtube.com/` of the first branch of `ytRegex`. -/
def ytcomL : List Char := ['y','o','u','t','u','b','e','.','c','o','m','/']

/-- Literal prefix `youtu.be/` of the second branch of `ytRegex`. -/
def ytbeL : List Char := ['y','o','u','t','u','.','b','e','/']

/-- Attempt of the whole `ytRegex` at one fixed start position:
`youtube.com/` followed by one of the three alternatives, or `youtu.be/`,
then the 11-character capture group.  Returns the capture on success. -/
def matchYTAt (s : List Char) : Option (List Char) :=
  orElseO (matchLit ytcomL s ytInner) (fun _ => matchLit ytbeL s mCap)

/-- Unanchored leftmost search of `ytRegex`, as `String.prototype.match`
performs it: try each start position from the left, returning the first
successful capture. -/
def ytSearch : List Char → Option (List Char)
  | [] => matchYTAt []
  | c :: rest => orElseO (matchYTAt (c :: rest)) (fun _ => ytSearch rest)

/-- Test of `/^\d+$/` in `App.tsx`: the string is nonempty and consists
of decimal digits only. -/
def digitsOnly (l : List Char) : Bool := !l.isEmpty && l.all Char.isDigit

/-- Test of `decoded.includes('vimeo.com')`: some tail of the string
starts with the pattern. -/
def hasSubstr (l pat : List Char) : Bool :=
  l.tails.any (fun t => pat.isPrefixOf t)

/-- Embedding of the `useState` initializer of `App.tsx`, from the point
where the query has been URL-decoded and trimmed: digit-only strings
resolve synchronously to Vimeo; a `ytRegex` match with a nonempty capture
resolves synchronously to YouTube; a string containing `vimeo.com`
signals pending asynchronous resolution (`none`); anything else falls
back to the configured default video. -/
def appResolveL (decoded : List Char) : Option VideoRef :=
  if digitsOnly decoded then some ⟨String.mk decoded, .vimeo⟩
  else
    match ytSearch decoded with
    | some cap => some ⟨String.mk cap, .youtube⟩
    | none =>
      if hasSubstr decoded ("vimeo.com".data) then none
      else some ⟨VIDEO_CONFIG_id, .vimeo⟩

/-- String-level wrapper of `appResolveL`. -/
def appResolve (decoded : String) : Option VideoRef := appResolveL decoded.data

/-! ## Theorems -/

/-- Choosing an already-successful first branch keeps its value. -/
@[simp] theorem orElseO_some (v : List Char) (b : Unit → Option (List Char)) :
    orElseO (some v) b = some v := rfl

/-- Choosing after a failed first branch runs the second. -/
@[simp] theorem orElseO_none (b : Unit → Option (List Char)) :
    orElseO none b = b () := rfl


/-- C1: for positive container dimensions and aspect, `calculateDimensions`
covers the container in both axes, and both output dimensions arise from a
pair whose exact ratio is `aspect` by the 1.02 overscan multiplication and
rounding up to the nearest integer pixel. -/
theorem calculateDimensions_cover (cw ch a : ℚ) (hcw : 0 < cw) (hch : 0 < ch)
    (ha : 0 < a) :
    cw ≤ ((calculateDimensions cw ch a).1 : ℚ) ∧
    ch ≤ ((calculateDimensions cw ch a).2 : ℚ) ∧
    ∃ w h : ℚ, 0 < w ∧ 0 < h ∧ w / h = a ∧
      (calculateDimensions cw ch a).1 = ⌈w * (102 / 100)⌉ ∧
      (calculateDimensions cw ch a).2 = ⌈h * (102 / 100)⌉ := by
  simp only [calculateDimensions]
  by_cases hc : cw / ch > a
  · rw [if_pos hc]
    refine ⟨?_, ?_, cw, cw / a, hcw, by positivity, ?_, rfl, rfl⟩
    · calc cw ≤ cw * (102/100) := by nlinarith
        _ ≤ (⌈cw * (102/100)⌉ : ℚ) := Int.le_ceil _
    · have h2 : a * ch < cw := (lt_div_iff₀ hch).mp hc
      have h1 : ch < cw / a := by
        rw [lt_div_iff₀ ha]
        nlinarith
      have h3 : (0:ℚ) < cw / a := by positivity
      calc ch ≤ cw / a := le_of_lt h1
        _ ≤ (cw / a) * (102/100) := by nlinarith
        _ ≤ (⌈(cw / a) * (102/100)⌉ : ℚ) := Int.le_ceil _
    · field_simp
  · rw [if_neg hc]
    have hle' : cw ≤ a * ch := (div_le_iff₀ hch).mp (le_of_not_lt hc)
    have hle : cw ≤ ch * a := by linarith [mul_comm a ch, hle']
    refine ⟨?_, ?_, ch * a, ch, by positivity, hch, ?_, rfl, rfl⟩
    · have h3 : (0:ℚ) < ch * a := by positivity
      calc cw ≤ ch * a := hle
        _ ≤ (ch * a) * (102/100) := by nlinarith
        _ ≤ (⌈(ch * a) * (102/100)⌉ : ℚ) := Int.le_ceil _
    · calc ch ≤ ch * (102/100) := by nlinarith
        _ ≤ (⌈ch * (102/100)⌉ : ℚ) := Int.le_ceil _
    · exact mul_div_cancel_left₀ a (ne_of_gt hch)

/-- C1 witness: the cover bounds evaluated at a concrete 1920x1080
container with a 16:9 video. -/
theorem calculateDimensions_cover_witness :
    (0:ℚ) < 1920 ∧ (0:ℚ) < 1080 ∧ (0:ℚ) < 16/9 ∧
    (1920:ℚ) ≤ ((calculateDimensions 1920 1080 (16/9)).1 : ℚ) ∧
    (1080:ℚ) ≤ ((calculateDimensions 1920 1080 (16/9)).2 : ℚ) :=
  ⟨by norm_num, by norm_num, by norm_num,
   (calculateDimensions_cover 1920 1080 (16/9) (by norm_num) (by norm_num)
     (by norm_num)).1,
   (calculateDimensions_cover 1920 1080 (16/9) (by norm_num) (by norm_num)
     (by norm_num)).2.1⟩

/-- C2: evaluation of the init-effect cleanup at a state where all three
timers are pending.  The cleanup clears the sync poll and the YouTube-ready
poll but leaves the controls auto-hide timeout pending, so that timeout's
callback can still fire after teardown. -/
theorem initCleanup_spares_controlsTimeout :
    initCleanup ⟨some 1, some 2, some 7⟩ =
      ⟨none, none, some 7⟩ ∧
    (initCleanup ⟨some 1, some 2, some 7⟩).controlsTimeout = some 7 :=
  ⟨rfl, rfl⟩

/-- C5: every failure outcome of the async Vimeo oEmbed resolution (fetch
rejection, non-ok response, JSON without `video_id`) sets the configured
default video reference; the function is total, so no error propagates. -/
theorem resolveVimeoUrl_failure_falls_back :
    resolveVimeoUrl .fetchReject = ⟨VIDEO_CONFIG_id, .vimeo⟩ ∧
    resolveVimeoUrl .notOk = ⟨VIDEO_CONFIG_id, .vimeo⟩ ∧
    resolveVimeoUrl .jsonNoVideoId = ⟨VIDEO_CONFIG_id, .vimeo⟩ :=
  ⟨rfl, rfl, rfl⟩

/-- C6: on end of playback (Vimeo `ended` event or YouTube state code 0)
the synchronized state has `progress = 0` and `isPlaying = false`, the
adapter is reset to time 0 and paused, and the control overlay is visible. -/
theorem ended_resets_state (s : PlayerState) (a : AdapterState) :
    (vimeoEnded s a).1.isPlaying = false ∧ (vimeoEnded s a).1.progress = 0 ∧
    (vimeoEnded s a).2.currentTime = 0 ∧ (vimeoEnded s a).2.paused = true ∧
    isControlsVisible (vimeoEnded s a).1 = true ∧
    (onStateChange 0 s a).1.isPlaying = false ∧
    (onStateChange 0 s a).1.progress = 0 ∧
    (onStateChange 0 s a).2.currentTime = 0 ∧
    (onStateChange 0 s a).2.paused = true ∧
    isControlsVisible (onStateChange 0 s a).1 = true := by
  simp [vimeoEnded, onStateChange, isControlsVisible]

/-- C7: while playback is paused the control overlay is visible, and it
stays visible even after the auto-hide timer callback fires. -/
theorem paused_controls_visible (s : PlayerState) (h : s.isPlaying = false) :
    isControlsVisible s = true ∧
    isControlsVisible (hideTimerFire s) = true := by
  simp [isControlsVisible, hideTimerFire, h]

/-- C7 witness: the paused-visibility property at a concrete paused state
whose hide timer has already cleared `showControls`. -/
theorem paused_controls_visible_witness :
    (PlayerState.mk false 5 false).isPlaying = false ∧
    (isControlsVisible (PlayerState.mk false 5 false) = true ∧
     isControlsVisible (hideTimerFire (PlayerState.mk false 5 false)) = true) :=
  ⟨rfl, paused_controls_visible (PlayerState.mk false 5 false) rfl⟩

/-- C8 counterexample: a buffering event (state code 3) arriving while
`isPlaying` is false leaves `isPlaying` false in the state-change handler,
so buffering is not treated as playing there. -/
theorem onStateChange_buffering_not_playing :
    ((onStateChange 3 (PlayerState.mk false 0 false)
        (AdapterState.mk 0 true)).1).isPlaying = false := by
  simp [onStateChange]

/-- C8 amended: the 1-second sync poll sets `isPlaying` to true exactly on
state codes 1 (playing) and 3 (buffering), but the `onStateChange` event
handler leaves both the state and the adapter unchanged on code 3 — only
codes 1, 2 and 0 modify them. -/
theorem buffering_treated_as_playing_in_poll :
    (∀ (ct : Option ℚ) (s : PlayerState), (ytSyncTick 3 ct s).isPlaying = true) ∧
    (∀ (ct : Option ℚ) (s : PlayerState), (ytSyncTick 1 ct s).isPlaying = true) ∧
    (∀ (ct : Option ℚ) (s : PlayerState), (ytSyncTick 2 ct s).isPlaying = false) ∧
    (∀ (s : PlayerState) (a : AdapterState),
      ((onStateChange 3 s a).1).isPlaying = s.isPlaying) ∧
    (∀ (s : PlayerState) (a : AdapterState), (onStateChange 3 s a).2 = a) := by
  refine ⟨?_, ?_, ?_, ?_, ?_⟩
  · intro ct s; cases ct <;> simp [ytSyncTick]
  · intro ct s; cases ct <;> simp [ytSyncTick]
  · intro ct s; cases ct <;> simp [ytSyncTick]
  · intro s a; simp [onStateChange]
  · intro s a; simp [onStateChange]

/-- C9 counterexample: a dimension response with a negative width passes
the truthiness guard and drives the aspect ratio negative. -/
theorem updateAspect_negative :
    updateAspect (some (-16)) (some 9) videoAspectRatioInit = -16 / 9 ∧
    updateAspect (some (-16)) (some 9) videoAspectRatioInit < 0 := by
  constructor <;> norm_num [updateAspect, videoAspectRatioInit]

/-- C9 amended: the aspect ratio starts at 16/9 (positive); responses with
a missing or zero width or height are ignored; an applied update never
yields zero when the previous aspect is nonzero, and strictly positive
dimensions keep the aspect strictly positive.  Responses with a negative
dimension are not ignored, so positivity is only preserved when the
reported dimensions are positive. -/
theorem updateAspect_guards :
    videoAspectRatioInit = 16 / 9 ∧ 0 < videoAspectRatioInit ∧
    (∀ (h : Option ℚ) (a : ℚ), updateAspect none h a = a) ∧
    (∀ (w : Option ℚ) (a : ℚ), updateAspect w none a = a) ∧
    (∀ (h : Option ℚ) (a : ℚ), updateAspect (some 0) h a = a) ∧
    (∀ (w : Option ℚ) (a : ℚ), updateAspect w (some 0) a = a) ∧
    (∀ (w h : Option ℚ) (a : ℚ), a ≠ 0 → updateAspect w h a ≠ 0) ∧
    (∀ (w h a : ℚ), 0 < a → 0 < w → 0 < h →
      0 < updateAspect (some w) (some h) a) := by
  refine ⟨rfl, by norm_num [videoAspectRatioInit], ?_, ?_, ?_, ?_, ?_, ?_⟩
  · intro h a; cases h <;> simp [updateAspect]
  · intro w a; cases w <;> simp [updateAspect]
  · intro h a; cases h <;> simp [updateAspect]
  · intro w a; cases w <;> simp [updateAspect]
  · intro w h a ha
    cases w with
    | none => simpa [updateAspect] using ha
    | some wv =>
      cases h with
      | none => simpa [updateAspect] using ha
      | some hv =>
        simp only [updateAspect]
        split
        · next hcond => exact div_ne_zero hcond.1 hcond.2
        · exact ha
  · intro w h a ha hw hh
    simp only [updateAspect, if_pos (And.intro (ne_of_gt hw) (ne_of_gt hh))]
    positivity

/-- C9 amended witness: the guard evaluated at positive 4x3 dimensions. -/
theorem updateAspect_guards_witness :
    (0:ℚ) < 16/9 ∧ (0:ℚ) < 4 ∧ (0:ℚ) < 3 ∧
    0 < updateAspect (some 4) (some 3) (16/9) :=
  ⟨by norm_num, by norm_num, by norm_num,
   updateAspect_guards.2.2.2.2.2.2.2 4 3 (16/9) (by norm_num) (by norm_num)
     (by norm_num)⟩

/-- Matching the empty literal consumes nothing. -/
theorem matchLit_nil (s : List Char) (k : List Char → Option (List Char)) :
    matchLit [] s k = k s := rfl

/-- Matching a literal against itself followed by a remainder hands the
remainder to the continuation. -/
theorem matchLit_append (l : List Char) :
    ∀ (s : List Char) (k : List Char → Option (List Char)),
      matchLit l (l ++ s) k = k s := by
  induction l with
  | nil => intro s k; rfl
  | cons c cs ih => intro s k; simp [matchLit, ih]

/-- A literal match fails on a differing head character. -/
theorem matchLit_cons_ne {c d : Char} (h : c ≠ d) (cs ds : List Char)
    (k : List Char → Option (List Char)) :
    matchLit (c :: cs) (d :: ds) k = none := by
  simp [matchLit, h]

/-- A literal match consumes an equal head character. -/
theorem matchLit_cons_eq (c : Char) (cs ds : List Char)
    (k : List Char → Option (List Char)) :
    matchLit (c :: cs) (c :: ds) k = matchLit cs ds k := by
  simp [matchLit]

/-- Greedy repetition fails when the continuation fails on every suffix
it could hand over. -/
theorem greedyPlus_none (p : Char → Bool) (k : List Char → Option (List Char)) :
    ∀ l : List Char, (∀ t, t.IsSuffix l → k t = none) →
      greedyPlus p l k = none := by
  intro l
  induction l with
  | nil => intro _; rfl
  | cons c rest ih =>
    intro h
    simp only [greedyPlus]
    by_cases hp : p c
    · rw [if_pos hp, ih (fun t ht => h t (ht.trans (List.suffix_cons c rest))),
        orElseO_none, h rest (List.suffix_cons c rest)]
    · rw [if_neg hp]

/-- A capture-class character is not a slash. -/
theorem classD_ne_slash {c : Char} (h : classD c = true) : c ≠ '/' := by
  intro hc; subst hc; simp [classD, jsWhitespace] at h

/-- A capture-class character is not a question mark. -/
theorem classD_ne_q {c : Char} (h : classD c = true) : c ≠ '?' := by
  intro hc; subst hc; simp [classD, jsWhitespace] at h

/-- A capture-class character is not an ampersand. -/
theorem classD_ne_amp {c : Char} (h : classD c = true) : c ≠ '&' := by
  intro hc; subst hc; simp [classD, jsWhitespace] at h

/-- Matching a slash literal fails on a slash-free string. -/
theorem matchLit_slash_none {l : List Char} (h : ∀ c ∈ l, c ≠ '/')
    (k : List Char → Option (List Char)) : matchLit ['/'] l k = none := by
  cases l with
  | nil => rfl
  | cons c w =>
    exact matchLit_cons_ne (fun he => (h c (List.mem_cons_self c w)) he.symm) _ _ _

/-- The first-slash continuation of `[^/]+/.+/` fails on a slash-free rest. -/
theorem a1k1_none {l : List Char} (h : ∀ c ∈ l, c ≠ '/') : a1k1 l = none :=
  matchLit_slash_none h _

/-- The middle `.+/` of `[^/]+/.+/` fails on a slash-free rest. -/
theorem a1mid_none {l : List Char} (h : ∀ c ∈ l, c ≠ '/') : a1mid l = none := by
  refine greedyPlus_none _ _ _ (fun t ht => ?_)
  exact matchLit_slash_none (fun c hc => h c (ht.subset hc)) _

/-- The whole alternative `[^/]+/.+/` fails on a slash-free rest. -/
theorem matchA1_none {l : List Char} (h : ∀ c ∈ l, c ≠ '/') :
    matchA1 l = none := by
  refine greedyPlus_none _ _ _ (fun t ht => ?_)
  exact a1k1_none (fun c hc => h c (ht.subset hc))

/-- The `[?&]v=` continuation fails on a capture-class string, whose head
can be neither `?` nor `&`. -/
theorem a3k_classD_none {l : List Char} (h : ∀ c ∈ l, classD c = true) :
    a3k l = none := by
  cases l with
  | nil => rfl
  | cons c w =>
    have hc : classD c = true := h c (List.mem_cons_self c w)
    simp [a3k, classD_ne_q hc, classD_ne_amp hc]

/-- Greedy `.*` over a capture-class string never reaches a `[?&]v=`. -/
theorem gp_isDot_a3k_none {l : List Char} (h : ∀ c ∈ l, classD c = true) :
    greedyPlus isDot l a3k = none := by
  refine greedyPlus_none _ _ _ (fun t ht => ?_)
  exact a3k_classD_none (fun c hc => h c (ht.subset hc))

/-- The capture group accepts an exact 11-character capture-class string. -/
theorem mCap_exact {l : List Char} (h11 : l.length = 11)
    (hD : ∀ c ∈ l, classD c = true) : mCap l = some l := by
  have ht : l.take 11 = l := List.take_of_length_le (le_of_eq h11)
  simp [mCap, ht, h11, List.all_eq_true.mpr hD]

/-- The capture group takes the first 11 characters of a longer string
whose 11-character prefix is capture-class. -/
theorem mCap_take {t : List Char} (hlen : 11 ≤ t.length)
    (hD : ∀ c ∈ t.take 11, classD c = true) : mCap t = some (t.take 11) := by
  simp [mCap, List.length_take, min_eq_left hlen, List.all_eq_true.mpr hD]

/-- After `youtube.com/`, the rest `watch?v=` followed by an 11-character
capture-class id matches via the `.*[?&]v=` alternative, capturing the id. -/
theorem ytInner_watch {l : List Char} (h11 : l.length = 11)
    (hD : ∀ c ∈ l, classD c = true) :
    ytInner ('w':: 'a':: 't':: 'c':: 'h':: '?':: 'v':: '='::l) = some l := by
  have hns : ∀ c ∈ ('w':: 'a':: 't':: 'c':: 'h':: '?':: 'v':: '='::l), c ≠ '/' := by
    simp only [List.forall_mem_cons]
    exact ⟨by decide, by decide, by decide, by decide, by decide, by decide,
      by decide, by decide, fun c hc => classD_ne_slash (hD c hc)⟩
  have hA1 : matchA1 ('w':: 'a':: 't':: 'c':: 'h':: '?':: 'v':: '='::l) = none :=
    matchA1_none hns
  have hgpl : greedyPlus isDot l a3k = none := gp_isDot_a3k_none hD
  have ha3l : a3k l = none := a3k_classD_none hD
  have hcap : mCap l = some l := mCap_exact h11 hD
  have ha3eq : a3k ('='::l) = none := by simp [a3k]
  have ha3v : a3k ('v':: '='::l) = none := by simp [a3k]
  have ha3q : a3k ('?':: 'v':: '='::l) = some l := by
    simp [a3k, matchLit, hcap]
  simp [ytInner, hA1, matchA2, matchLit, matchA3, greedyStar, greedyPlus,
    isDot, hgpl, ha3l, ha3eq, ha3v, ha3q, hcap]

/-- After `youtube.com/`, the rest `embed/` followed by an 11-character
capture-class id matches via the `e(?:mbed)?/` alternative, capturing
the id. -/
theorem ytInner_embed {l : List Char} (h11 : l.length = 11)
    (hD : ∀ c ∈ l, classD c = true) :
    ytInner ('e':: 'm':: 'b':: 'e':: 'd':: '/'::l) = some l := by
  have hcap : mCap l = some l := mCap_exact h11 hD
  have hmid : a1mid l = none := a1mid_none (fun c hc => classD_ne_slash (hD c hc))
  simp [ytInner, matchA1, matchA2, a1k1, a2afterE, a2slash, matchLit,
    greedyPlus, nonSlash, hmid, hcap]

/-- After `youtube.com/`, the rest `v/` followed by an 11-character
capture-class id matches via the `v/` alternative, capturing the id. -/
theorem ytInner_v {l : List Char} (h11 : l.length = 11)
    (hD : ∀ c ∈ l, classD c = true) :
    ytInner ('v':: '/'::l) = some l := by
  have hcap : mCap l = some l := mCap_exact h11 hD
  have hmid : a1mid l = none := a1mid_none (fun c hc => classD_ne_slash (hD c hc))
  simp [ytInner, matchA1, matchA2, a1k1, a2slash, matchLit,
    greedyPlus, nonSlash, hmid, hcap]

/-- A successful inner match right after the `youtube.com/` prefix gives
a successful anchored match of the whole pattern. -/
theorem matchYTAt_com_some {rest v : List Char} (h : ytInner rest = some v) :
    matchYTAt ('y':: 'o':: 'u':: 't':: 'u':: 'b':: 'e':: '.':: 'c':: 'o':: 'm':: '/'::rest) =
      some v := by
  simp [matchYTAt, ytcomL, matchLit, h]

/-- A successful capture right after the `youtu.be/` prefix gives a
successful anchored match of the whole pattern (the `youtube.com/` branch
fails on the sixth character). -/
theorem matchYTAt_be_some {rest v : List Char} (h : mCap rest = some v) :
    matchYTAt ('y':: 'o':: 'u':: 't':: 'u':: '.':: 'b':: 'e':: '/'::rest) = some v := by
  simp [matchYTAt, ytcomL, ytbeL, matchLit, h]

/-- A match anchored at the first position is the leftmost search result. -/
theorem ytSearch_cons_some {c : Char} {rest v : List Char}
    (h : matchYTAt (c :: rest) = some v) : ytSearch (c :: rest) = some v := by
  simp only [ytSearch]
  rw [h]
  rfl

/-- C3: a nonempty decoded query consisting only of decimal digits
resolves synchronously (no pending state, hence no network request) to
that digit string with provider Vimeo. -/
theorem digits_resolve (decoded : String) (h1 : decoded ≠ "")
    (h2 : ∀ c ∈ decoded.data, Char.isDigit c = true) :
    appResolve decoded = some ⟨decoded, .vimeo⟩ := by
  obtain ⟨l⟩ := decoded
  have hl : l ≠ [] := by
    intro h; apply h1; rw [h]
  have hdig : digitsOnly l = true := by
    cases l with
    | nil => exact absurd rfl hl
    | cons c w =>
      have hall : (c::w).all Char.isDigit = true := List.all_eq_true.mpr h2
      simp [digitsOnly, hall]
  show appResolveL l = some ⟨String.mk l, .vimeo⟩
  simp [appResolveL, hdig]

/-- C3 witness: the digit fast path at the concrete query `1157009946`. -/
theorem digits_resolve_witness :
    ("1157009946" : String) ≠ "" ∧
    (∀ c ∈ ("1157009946" : String).data, Char.isDigit c = true) ∧
    appResolve "1157009946" = some ⟨"1157009946", .vimeo⟩ :=
  ⟨by decide, by decide, digits_resolve "1157009946" (by decide) (by decide)⟩

/-- C4: each recognized YouTube URL shape (`youtube.com/watch?v=`,
`youtube.com/embed/`, `youtube.com/v/`, `youtu.be/`) followed by an
11-character id over the capture class resolves synchronously to provider
YouTube with exactly that id extracted. -/
theorem ytShapes_resolve (id : String) (h11 : id.data.length = 11)
    (hD : ∀ c ∈ id.data, classD c = true) :
    appResolve ("youtube.com/watch?v=" ++ id) = some ⟨id, .youtube⟩ ∧
    appResolve ("youtube.com/embed/" ++ id) = some ⟨id, .youtube⟩ ∧
    appResolve ("youtube.com/v/" ++ id) = some ⟨id, .youtube⟩ ∧
    appResolve ("youtu.be/" ++ id) = some ⟨id, .youtube⟩ := by
  obtain ⟨l⟩ := id
  have hy : Char.isDigit 'y' = false := by decide
  refine ⟨?_, ?_, ?_, ?_⟩
  · have hs : ytSearch ('y':: 'o':: 'u':: 't':: 'u':: 'b':: 'e':: '.':: 'c':: 'o':: 'm':: '/'::
        'w':: 'a':: 't':: 'c':: 'h':: '?':: 'v':: '='::l) = some l :=
      ytSearch_cons_some (matchYTAt_com_some (ytInner_watch h11 hD))
    show appResolveL ('y':: 'o':: 'u':: 't':: 'u':: 'b':: 'e':: '.':: 'c':: 'o':: 'm':: '/'::
        'w':: 'a':: 't':: 'c':: 'h':: '?':: 'v':: '='::l) = some ⟨String.mk l, .youtube⟩
    simp [appResolveL, digitsOnly, List.all_cons, hy, hs]
  · have hs : ytSearch ('y':: 'o':: 'u':: 't':: 'u':: 'b':: 'e':: '.':: 'c':: 'o':: 'm':: '/'::
        'e':: 'm':: 'b':: 'e':: 'd':: '/'::l) = some l :=
      ytSearch_cons_some (matchYTAt_com_some (ytInner_embed h11 hD))
    show appResolveL ('y':: 'o':: 'u':: 't':: 'u':: 'b':: 'e':: '.':: 'c':: 'o':: 'm':: '/'::
        'e':: 'm':: 'b':: 'e':: 'd':: '/'::l) = some ⟨String.mk l, .youtube⟩
    simp [appResolveL, digitsOnly, List.all_cons, hy, hs]
  · have hs : ytSearch ('y':: 'o':: 'u':: 't':: 'u':: 'b':: 'e':: '.':: 'c':: 'o':: 'm':: '/'::
        'v':: '/'::l) = some l :=
      ytSearch_cons_some (matchYTAt_com_some (ytInner_v h11 hD))
    show appResolveL ('y':: 'o':: 'u':: 't':: 'u':: 'b':: 'e':: '.':: 'c':: 'o':: 'm':: '/'::
        'v':: '/'::l) = some ⟨String.mk l, .youtube⟩
    simp [appResolveL, digitsOnly, List.all_cons, hy, hs]
  · have hcap : mCap l = some l := mCap_exact h11 hD
    have hs : ytSearch ('y':: 'o':: 'u':: 't':: 'u':: '.':: 'b':: 'e':: '/'::l) = some l :=
      ytSearch_cons_some (matchYTAt_be_some hcap)
    show appResolveL ('y':: 'o':: 'u':: 't':: 'u':: '.':: 'b':: 'e':: '/'::l) =
      some ⟨String.mk l, .youtube⟩
    simp [appResolveL, digitsOnly, List.all_cons, hy, hs]

/-- C4 witness: all four URL shapes at the concrete id `dQw4w9WgXcQ`. -/
theorem ytShapes_resolve_witness :
    ("dQw4w9WgXcQ" : String).data.length = 11 ∧
    (∀ c ∈ ("dQw4w9WgXcQ" : String).data, classD c = true) ∧
    (appResolve ("youtube.com/watch?v=" ++ "dQw4w9WgXcQ") =
        some ⟨"dQw4w9WgXcQ", .youtube⟩ ∧
     appResolve ("youtube.com/embed/" ++ "dQw4w9WgXcQ") =
        some ⟨"dQw4w9WgXcQ", .youtube⟩ ∧
     appResolve ("youtube.com/v/" ++ "dQw4w9WgXcQ") =
        some ⟨"dQw4w9WgXcQ", .youtube⟩ ∧
     appResolve ("youtu.be/" ++ "dQw4w9WgXcQ") =
        some ⟨"dQw4w9WgXcQ", .youtube⟩) :=
  ⟨by decide, by decide, ytShapes_resolve "dQw4w9WgXcQ" (by decide) (by decide)⟩

/-- C10: a `youtu.be/` query whose tail starts with 12 or more
capture-class characters still resolves synchronously to YouTube, with
the id equal to the first 11 characters of the tail. -/
theorem yt_long_tail (t : String) (hlen : 12 ≤ t.data.length)
    (hD : ∀ c ∈ t.data.take 12, classD c = true) :
    appResolve ("youtu.be/" ++ t) =
      some ⟨String.mk (t.data.take 11), .youtube⟩ := by
  obtain ⟨l⟩ := t
  have h11 : 11 ≤ l.length := le_trans (by norm_num) hlen
  have hsub : l.take 11 ⊆ l.take 12 := by
    have h1112 : (11 : ℕ) ⊓ 12 = 11 := by norm_num
    rw [show l.take 11 = (l.take 12).take 11 by rw [List.take_take, h1112]]
    exact List.take_subset _ _
  have hD11 : ∀ c ∈ l.take 11, classD c = true := fun c hc => hD c (hsub hc)
  have hcap : mCap l = some (l.take 11) := mCap_take h11 hD11
  have hs : ytSearch ('y':: 'o':: 'u':: 't':: 'u':: '.':: 'b':: 'e':: '/'::l) =
      some (l.take 11) := ytSearch_cons_some (matchYTAt_be_some hcap)
  show appResolveL ('y':: 'o':: 'u':: 't':: 'u':: '.':: 'b':: 'e':: '/'::l) =
    some ⟨String.mk (l.take 11), .youtube⟩
  simp [appResolveL, digitsOnly, List.all_cons,
    (show Char.isDigit 'y' = false by decide), hs]

/-- C10 witness: a 14-character tail after `youtu.be/` still resolves to
its first 11 characters. -/
theorem yt_long_tail_witness :
    12 ≤ ("dQw4w9WgXcQxyz" : String).data.length ∧
    (∀ c ∈ ("dQw4w9WgXcQxyz" : String).data.take 12, classD c = true) ∧
    appResolve ("youtu.be/" ++ "dQw4w9WgXcQxyz") =
      some ⟨String.mk (("dQw4w9WgXcQxyz" : String).data.take 11), .youtube⟩ :=
  ⟨by decide, by decide, yt_long_tail "dQw4w9WgXcQxyz" (by decide) (by decide)⟩
